import Mathlib

/-!
Verification of the courier server core (`src/server.go`): the lifecycle state
machine (`Start`/`Stop`), the handler activation policy, channel route
registration, request dispatch, and the index-page route listing.

The Go code is shallowly embedded: the lifecycle-relevant fields of the
`server` struct become a `ServerState` record and `Start`/`Stop` become pure
state transformers; the routing-relevant fields (`chi` routers and the
`routes` help listing) become a `ServerRoutes` record.  Closing a Go channel
that is already closed panics, so the embedded `Stop` reports a `panicked`
outcome in that case.  `waitGroup.Wait()` blocks until the counter is zero;
in the sequential embedding the successful `Stop` path (which shuts the HTTP
server down and closes the stop channel, making every tracked background
task exit) is modelled by the counter reaching zero together with the
`waitedForGroup` flag, while a path that returns without executing
`waitGroup.Wait()` leaves the counter and the flag untouched.
-/

namespace Courier

/-- Lifecycle-relevant state of the `server` struct (src/server.go:174-188):
whether the backend was started, the `stopped` flag, whether `stopChan` has
been closed, whether the `http.Server` was configured and later shut down,
the `sync.WaitGroup` counter (counting the tracked listener-serving task),
and whether `Stop` has executed `waitGroup.Wait()`. -/
structure ServerState where
  backendStarted : Bool
  stopped : Bool
  stopChanClosed : Bool
  httpServerSet : Bool
  httpShutdownCalled : Bool
  wgCounter : Nat
  waitedForGroup : Bool
  deriving DecidableEq

/-- The state built by `NewServer` (src/server.go:58-68): `stopChan` freshly
made (open), `waitGroup` fresh (counter zero), `stopped` false. -/
def newServerState : ServerState :=
  { backendStarted := false
    stopped := false
    stopChanClosed := false
    httpServerSet := false
    httpShutdownCalled := false
    wgCounter := 0
    waitedForGroup := false }

/-- `server.Start` (src/server.go:74-119).  `backendStartErr` is the result of
`s.backend.Start()`: a non-nil error is returned unchanged (line 77-79).
Otherwise the spool flushers are started, the index page is wired up, the
channel handlers are initialized (modelled separately by
`initChannelHandlers` below), the `http.Server` is configured, and the
listener-serving goroutine is launched; that goroutine does
`waitGroup.Add(1)` on entry (line 100), raising the counter. -/
def serverStart (backendStartErr : Option String) (st : ServerState) :
    Option String × ServerState :=
  match backendStartErr with
  | some e => (some e, st)
  | none =>
      (none, { st with
                backendStarted := true
                httpServerSet := true
                wgCounter := st.wgCounter + 1 })

/-- Outcome of `server.Stop`: the returned error (when it returns), whether
the call panicked (a Go `close` of an already-closed channel panics), and the
final server state. -/
structure StopResult where
  returnedErr : Option String
  panicked : Bool
  finalState : ServerState
  deriving DecidableEq

/-- `server.Stop` (src/server.go:122-152).  `backendStopErr` is the result of
`s.backend.Stop()` (line 128): a non-nil error is returned immediately
(lines 129-131), before any other shutdown step.  Otherwise `s.stopped` is
set (line 133), `s.stopChan` is closed (line 134) — which panics if the
channel is already closed —, `s.httpServer.Shutdown` is requested (its error
is only logged, lines 137-142), and `s.waitGroup.Wait()` runs (line 144):
the HTTP shutdown makes `ListenAndServe` return so the tracked listener task
does `waitGroup.Done()` and exits, and the counter drains to zero. -/
def serverStop (backendStopErr : Option String) (st : ServerState) : StopResult :=
  match backendStopErr with
  | some e => { returnedErr := some e, panicked := false, finalState := st }
  | none =>
      let st1 := { st with stopped := true }
      if st1.stopChanClosed then
        { returnedErr := none, panicked := true, finalState := st1 }
      else
        { returnedErr := none
          panicked := false
          finalState := { st1 with
                            stopChanClosed := true
                            httpShutdownCalled := true
                            wgCounter := 0
                            waitedForGroup := true } }

/-- The state of a server on which `Start` succeeded: one tracked background
task (the listener-serving goroutine) is running, the stop channel is open,
the `stopped` flag is false. -/
def postStartState : ServerState := (serverStart none newServerState).2

/-- The state after a first successful `Stop` on a started server. -/
def postStopState : ServerState := (serverStop none postStartState).finalState

/-- C1: at the failing input — a server after a successful `Start` whose
backend `Stop()` returns the error "boom" — `server.Stop` returns that error
immediately and performs none of the remaining shutdown steps: the `stopped`
flag stays false, the stop channel stays open, the HTTP server is not shut
down, and `waitGroup.Wait()` is never executed.  This contradicts the claim
(and the source's own doc comment, src/server.go:121, that `Stop` returns
"only after all threads have stopped"). -/
theorem stop_backendErr_skips_shutdown :
    (serverStop (some "boom") postStartState).returnedErr = some "boom" ∧
    (serverStop (some "boom") postStartState).panicked = false ∧
    (serverStop (some "boom") postStartState).finalState.stopped = false ∧
    (serverStop (some "boom") postStartState).finalState.stopChanClosed = false ∧
    (serverStop (some "boom") postStartState).finalState.httpShutdownCalled = false ∧
    (serverStop (some "boom") postStartState).finalState.waitedForGroup = false :=
  ⟨rfl, rfl, rfl, rfl, rfl, rfl⟩

/-- C2: after a successful `Start` the wait-group counter is 1 (the
listener-serving task), yet when the backend's `Stop()` errors,
`server.Stop` returns with the counter still 1 and without having executed
`waitGroup.Wait()` — so `Stop` can return while background activity remains,
contrary to the claim; on the nil-error path `Stop` does wait and the
counter is drained. -/
theorem stop_backendErr_returns_with_pending_tasks :
    postStartState.wgCounter = 1 ∧
    (serverStop (some "io error") postStartState).returnedErr = some "io error" ∧
    (serverStop (some "io error") postStartState).finalState.wgCounter = 1 ∧
    (serverStop (some "io error") postStartState).finalState.waitedForGroup = false ∧
    (serverStop none postStartState).finalState.wgCounter = 0 ∧
    (serverStop none postStartState).finalState.waitedForGroup = true :=
  ⟨rfl, rfl, rfl, rfl, rfl, rfl⟩

/-- C9: when the backend's `Stop()` returns a non-nil error, `server.Stop`
propagates exactly that error and returns immediately with the server state
unchanged — in particular the `stopped` flag, the stop channel, the HTTP
server and the wait group are all left exactly as they were. -/
theorem stop_backendErr_state_unchanged (e : String) (st : ServerState) :
    serverStop (some e) st = { returnedErr := some e, panicked := false, finalState := st } :=
  rfl

/-- C4 counterexample: a second `Stop` after a first completed `Stop` (with
the backend's `Stop()` again returning nil) reaches the unguarded
`close(s.stopChan)` on an already-closed channel and panics — the double
close is not prevented by the `stopped` flag or any one-shot primitive. -/
theorem secondStop_panics :
    postStopState.stopChanClosed = true ∧
    (serverStop none postStopState).panicked = true :=
  ⟨rfl, rfl⟩

/-- C4 amended: a single `Stop` whose backend stop succeeds closes the stop
channel exactly once (open before, closed after, no panic); but the close is
unguarded, so any further `Stop` on a state whose stop channel is already
closed panics when the backend stop again returns nil. -/
theorem stopChan_close_behavior (st : ServerState) :
    (st.stopChanClosed = false →
      (serverStop none st).panicked = false ∧
      (serverStop none st).finalState.stopChanClosed = true) ∧
    (st.stopChanClosed = true → (serverStop none st).panicked = true) := by
  constructor
  · intro h
    simp [serverStop, h]
  · intro h
    simp [serverStop, h]

/-- C4 amended witness: the first `Stop` on the freshly started server does
not panic and closes the channel; a second `Stop` panics. -/
theorem stopChan_close_behavior_witness :
    ((serverStop none postStartState).panicked = false ∧
      (serverStop none postStartState).finalState.stopChanClosed = true) ∧
    (serverStop none postStopState).panicked = true :=
  ⟨(stopChan_close_behavior postStartState).1 rfl,
   (stopChan_close_behavior postStopState).2 rfl⟩

/-- ASCII case mapping: the effect of Go's `strings.ToLower` on one ASCII
character (method strings and channel-type codes are ASCII). -/
def asciiToLower (c : Char) : Char :=
  if 'A' ≤ c && c ≤ 'Z' then Char.ofNat (c.toNat + 32) else c

/-- Go's `strings.ToLower` restricted to the ASCII strings the server
lowercases (HTTP methods, channel-type codes). -/
def stringToLower (s : String) : String :=
  String.mk (s.data.map asciiToLower)

/-- Pad a string on the right with spaces to the given minimum width — the
effect of the `%-20s` verb in `fmt.Sprintf` (src/server.go:246). -/
def padRightTo (s : String) (w : Nat) : String :=
  s ++ String.mk (List.replicate (w - s.length) ' ')

/-- The route-help line built at src/server.go:246:
`fmt.Sprintf("%-20s - %s %s", "/c"+path, handler.ChannelName(), action)`. -/
def routeDescription (path channelName action : String) : String :=
  padRightTo ("/c" ++ path) 20 ++ " - " ++ channelName ++ " " ++ action

/-- Routing-relevant state of the `server` struct: the sub-router prefixes
mounted on the top-level router, the paths registered directly on the
top-level router, the GET and POST routes of the channel router
(`chanRouter`), and the `routes` help listing (src/server.go:187). -/
structure ServerRoutes where
  mainMounts : List String
  mainGetPaths : List String
  chanGetRoutes : List String
  chanPostRoutes : List String
  routes : List String
  deriving DecidableEq

/-- Routing state built by `NewServer` (src/server.go:50-56): a fresh top
router, and a fresh channel router mounted on it under `/c/`. -/
def newServerRoutes : ServerRoutes :=
  { mainMounts := ["/c/"]
    mainGetPaths := []
    chanGetRoutes := []
    chanPostRoutes := []
    routes := [] }

/-- `server.AddChannelRoute` (src/server.go:234-248).  The method and the
handler's channel type are lowercased; the path is synthesized as
`/<channeltype>/:uuid/<action>/`; a `get` method registers it on the channel
router's GET table, a `post` method on its POST table, any other method
returns an "unsupported method" error carrying the lowercased method and
changes nothing; on success the route-help line is appended to `s.routes`.
Returns the error (as in Go) together with the resulting state. -/
def AddChannelRoute (channelType channelName method action : String)
    (st : ServerRoutes) : Option String × ServerRoutes :=
  let m := stringToLower method
  let ct := stringToLower channelType
  let path := "/" ++ ct ++ "/:uuid/" ++ action ++ "/"
  if m = "get" then
    (none, { st with
              chanGetRoutes := st.chanGetRoutes ++ [path]
              routes := st.routes ++ [routeDescription path channelName action] })
  else if m = "post" then
    (none, { st with
              chanPostRoutes := st.chanPostRoutes ++ [path]
              routes := st.routes ++ [routeDescription path channelName action] })
  else
    (some ("unsupported method: " ++ m), st)

/-- C6: calling `AddChannelRoute` with a method outside the supported set
(anything whose lowercasing is neither "get" nor "post") fails with the
"unsupported method" error and leaves the routing state — channel router
tables and route listing alike — completely unchanged. -/
theorem addChannelRoute_unsupported (channelType channelName method action : String)
    (st : ServerRoutes)
    (h1 : stringToLower method ≠ "get") (h2 : stringToLower method ≠ "post") :
    AddChannelRoute channelType channelName method action st =
      (some ("unsupported method: " ++ stringToLower method), st) := by
  simp [AddChannelRoute, h1, h2]

/-- C6 witness: registering a PUT route fails with the "unsupported method"
error and the route count is unchanged. -/
theorem addChannelRoute_unsupported_witness :
    AddChannelRoute "KN" "Kannel" "PUT" "receive" newServerRoutes =
      (some "unsupported method: put", newServerRoutes) :=
  addChannelRoute_unsupported "KN" "Kannel" "PUT" "receive" newServerRoutes
    (by decide) (by decide)

/-- C8: a successful `AddChannelRoute` registers exactly the path
`/<lowercased channel type>/:uuid/<action>/` on the channel router (GET or
POST table according to the method), never touches the top-level router's
own routes or mounts, and the channel router itself is mounted by
`NewServer` under the `/c/` prefix, isolating channel routes from the rest
of the HTTP surface. -/
theorem addChannelRoute_path_and_mount (channelType channelName method action : String)
    (st : ServerRoutes) :
    (stringToLower method = "get" →
      (AddChannelRoute channelType channelName method action st).2.chanGetRoutes =
        st.chanGetRoutes ++ ["/" ++ stringToLower channelType ++ "/:uuid/" ++ action ++ "/"] ∧
      (AddChannelRoute channelType channelName method action st).2.chanPostRoutes =
        st.chanPostRoutes ∧
      (AddChannelRoute channelType channelName method action st).1 = none) ∧
    (stringToLower method = "post" →
      (AddChannelRoute channelType channelName method action st).2.chanPostRoutes =
        st.chanPostRoutes ++ ["/" ++ stringToLower channelType ++ "/:uuid/" ++ action ++ "/"] ∧
      (AddChannelRoute channelType channelName method action st).2.chanGetRoutes =
        st.chanGetRoutes ∧
      (AddChannelRoute channelType channelName method action st).1 = none) ∧
    (AddChannelRoute channelType channelName method action st).2.mainMounts = st.mainMounts ∧
    (AddChannelRoute channelType channelName method action st).2.mainGetPaths = st.mainGetPaths ∧
    newServerRoutes.mainMounts = ["/c/"] := by
  refine ⟨?_, ?_, ?_, ?_, rfl⟩
  · intro h
    simp [AddChannelRoute, h]
  · intro h
    by_cases hget : stringToLower method = "get"
    · rw [hget] at h
      exact absurd h (by decide)
    · simp [AddChannelRoute, h, hget]
  · by_cases hget : stringToLower method = "get"
    · simp [AddChannelRoute, hget]
    · by_cases hpost : stringToLower method = "post"
      · simp [AddChannelRoute, hget, hpost]
      · simp [AddChannelRoute, hget, hpost]
  · by_cases hget : stringToLower method = "get"
    · simp [AddChannelRoute, hget]
    · by_cases hpost : stringToLower method = "post"
      · simp [AddChannelRoute, hget, hpost]
      · simp [AddChannelRoute, hget, hpost]

/-- C8 witness: registering a GET `receive` action for channel type `KN`
mounts exactly `/kn/:uuid/receive/` on the channel router (served under the
`/c/` mount), and the top-level router is untouched. -/
theorem addChannelRoute_path_and_mount_witness :
    (AddChannelRoute "KN" "Kannel" "GET" "receive" newServerRoutes).2.chanGetRoutes =
      ["/kn/:uuid/receive/"] ∧
    (AddChannelRoute "KN" "Kannel" "GET" "receive" newServerRoutes).2.mainMounts = ["/c/"] ∧
    (AddChannelRoute "KN" "Kannel" "GET" "receive" newServerRoutes).2.mainGetPaths = [] := by
  have h := addChannelRoute_path_and_mount "KN" "Kannel" "GET" "receive" newServerRoutes
  refine ⟨?_, ?_, ?_⟩
  · exact ((h.1 (by decide)).1).trans (by decide)
  · exact h.2.2.1.trans (by decide)
  · exact h.2.2.2.1.trans (by decide)

/-- C10: `AddChannelRoute` matches the method case-insensitively: any method
lowercasing to "get" registers a GET route, any method lowercasing to
"post" registers a POST route, and exactly the methods lowercasing to
neither are rejected, with the error message carrying the lowercased
method. -/
theorem addChannelRoute_method_case (channelType channelName method action : String)
    (st : ServerRoutes) :
    (stringToLower method = "get" →
      (AddChannelRoute channelType channelName method action st).1 = none ∧
      (AddChannelRoute channelType channelName method action st).2.chanGetRoutes.length =
        st.chanGetRoutes.length + 1) ∧
    (stringToLower method = "post" →
      (AddChannelRoute channelType channelName method action st).1 = none ∧
      (AddChannelRoute channelType channelName method action st).2.chanPostRoutes.length =
        st.chanPostRoutes.length + 1) ∧
    (stringToLower method ≠ "get" → stringToLower method ≠ "post" →
      (AddChannelRoute channelType channelName method action st).1 =
        some ("unsupported method: " ++ stringToLower method)) := by
  refine ⟨?_, ?_, ?_⟩
  · intro h
    simp [AddChannelRoute, h]
  · intro h
    by_cases hget : stringToLower method = "get"
    · rw [hget] at h
      exact absurd h (by decide)
    · simp [AddChannelRoute, h, hget]
  · intro h1 h2
    simp [AddChannelRoute, h1, h2]

/-- C10 witness: "GET", "get" and "GeT" all register a GET route, "pOsT"
registers a POST route, and "DELETE" is rejected with the lowercased method
in the error message. -/
theorem addChannelRoute_method_case_witness :
    (AddChannelRoute "X" "X Channel" "GET" "receive" newServerRoutes).1 = none ∧
    (AddChannelRoute "X" "X Channel" "get" "receive" newServerRoutes).1 = none ∧
    (AddChannelRoute "X" "X Channel" "GeT" "receive" newServerRoutes).1 = none ∧
    (AddChannelRoute "X" "X Channel" "pOsT" "status" newServerRoutes).1 = none ∧
    (AddChannelRoute "X" "X Channel" "DELETE" "receive" newServerRoutes).1 =
      some "unsupported method: delete" :=
  ⟨((addChannelRoute_method_case "X" "X Channel" "GET" "receive" newServerRoutes).1
      (by decide)).1,
   ((addChannelRoute_method_case "X" "X Channel" "get" "receive" newServerRoutes).1
      (by decide)).1,
   ((addChannelRoute_method_case "X" "X Channel" "GeT" "receive" newServerRoutes).1
      (by decide)).1,
   ((addChannelRoute_method_case "X" "X Channel" "pOsT" "status" newServerRoutes).2.1
      (by decide)).1,
   ((addChannelRoute_method_case "X" "X Channel" "DELETE" "receive" newServerRoutes).2.2
      (by decide) (by decide)).trans (by decide)⟩

/-- Modelled from the spec: `utils.StringArrayContains` (its source is not
under src/); the spec speaks of the ChannelType being "a member" of the
configured include/exclude set, so this is list membership. -/
def StringArrayContains (arr : List String) (s : String) : Bool :=
  arr.contains s

/-- A registered channel handler's identity: its ChannelType code and its
human-readable name. -/
structure Handler where
  channelType : String
  channelName : String
  deriving DecidableEq

/-- The activation condition of src/server.go:197, literally:
`(includes == nil || StringArrayContains(includes, channelType)) &&
 (excludes == nil || !StringArrayContains(excludes, channelType))`.
A possibly-nil Go slice is modelled as an `Option (List String)`. -/
def activatedByConfig (includes excludes : Option (List String))
    (channelType : String) : Bool :=
  (match includes with
   | none => true
   | some arr => StringArrayContains arr channelType) &&
  (match excludes with
   | none => true
   | some arr => !StringArrayContains arr channelType)

/-- The handlers activated by the loop of `initializeChannelHandlers`
(src/server.go:195-206): those registered handlers whose channel type passes
the include/exclude filter (each is then initialized and put into
`activeHandlers`). -/
def activeHandlers (regs : List Handler) (includes excludes : Option (List String)) :
    List Handler :=
  regs.filter fun h => activatedByConfig includes excludes h.channelType

/-- The activation policy in the words of the claim: a configured
(non-empty) include set alone decides membership; otherwise a configured
(non-empty) exclude set decides by non-membership; otherwise every adapter
is activated — in particular, when both sets are configured the include set
wins and the exclude set is ignored. -/
def specActivationPolicy (includes excludes : Option (List String))
    (channelType : String) : Bool :=
  match includes with
  | some (a :: arr) => StringArrayContains (a :: arr) channelType
  | _ =>
      match excludes with
      | some (b :: arr) => !StringArrayContains (b :: arr) channelType
      | _ => true

/-- C3 counterexample: with include set `{"A"}` and exclude set `{"A"}` both
configured, the code does NOT activate an adapter of channel type "A"
(the literal conjunction lets the exclude set veto it), while the claimed
"include wins, exclude is ignored" policy would activate it. -/
theorem activation_both_sets_counterexample :
    activatedByConfig (some ["A"]) (some ["A"]) "A" = false ∧
    specActivationPolicy (some ["A"]) (some ["A"]) "A" = true := by
  decide

/-- C3 amended: a registered handler is activated exactly when it passes
BOTH filters — its ChannelType is a member of the include set whenever one
is configured, AND it is not a member of the exclude set whenever one is
configured; with no filters every handler is activated.  When both sets are
configured they conjoin: the exclude set still applies. -/
theorem activeHandlers_policy (regs : List Handler) (h : Handler)
    (includes excludes : Option (List String)) :
    h ∈ activeHandlers regs includes excludes ↔
      h ∈ regs ∧
      (∀ inc, includes = some inc → StringArrayContains inc h.channelType = true) ∧
      (∀ exc, excludes = some exc → StringArrayContains exc h.channelType = false) := by
  rw [activeHandlers, List.mem_filter]
  refine and_congr_right fun _ => ?_
  cases includes with
  | none =>
      cases excludes with
      | none => simp [activatedByConfig]
      | some exc => simp [activatedByConfig]
  | some inc =>
      cases excludes with
      | none => simp [activatedByConfig]
      | some exc => simp [activatedByConfig, and_comm]

/-- C3 amended witness: with include `{"A","B"}` and exclude `{"B"}`, the
handler of type "A" is active and the handlers of types "B" (excluded) and
"C" (not included) are not. -/
theorem activeHandlers_policy_witness :
    (⟨"A", "Alpha"⟩ : Handler) ∈
        activeHandlers [⟨"A", "Alpha"⟩, ⟨"B", "Beta"⟩, ⟨"C", "Gamma"⟩]
          (some ["A", "B"]) (some ["B"]) ∧
    ¬ (⟨"B", "Beta"⟩ : Handler) ∈
        activeHandlers [⟨"A", "Alpha"⟩, ⟨"B", "Beta"⟩, ⟨"C", "Gamma"⟩]
          (some ["A", "B"]) (some ["B"]) := by
  constructor
  · exact (activeHandlers_policy [⟨"A", "Alpha"⟩, ⟨"B", "Beta"⟩, ⟨"C", "Gamma"⟩]
      ⟨"A", "Alpha"⟩ (some ["A", "B"]) (some ["B"])).mpr
      (by refine ⟨by decide, ?_, ?_⟩ <;> intro l hl <;> cases hl <;> decide)
  · intro hmem
    have := (activeHandlers_policy [⟨"A", "Alpha"⟩, ⟨"B", "Beta"⟩, ⟨"C", "Gamma"⟩]
      ⟨"B", "Beta"⟩ (some ["A", "B"]) (some ["B"])).mp hmem
    have hB := this.2.2 ["B"] rfl
    exact absurd hB (by decide)

/-- Result of one dispatched request through `channelFunctionWrapper`:
the error handed to `WriteError` (if any was written) and the channel the
adapter's action handler was invoked with (`none` when the handler was
never invoked). -/
structure DispatchOutcome (Channel : Type) where
  wroteError : Option String
  invokedWith : Option Channel
  deriving DecidableEq

/-- `server.channelFunctionWrapper` (src/server.go:212-232).  The UUID path
parameter's parse result (`NewChannelUUID`, outside src/, modelled as an
abstract `Except`), the backend's channel resolution, and the adapter's
action handler are the three steps: a parse error is written via
`WriteError` and the handler is never invoked (lines 216-219); a resolution
error likewise (lines 222-225); otherwise the handler runs on the resolved
channel and its error, if any, is written (lines 227-230). -/
def channelFunctionWrapper {UUID Channel : Type}
    (newChannelUUID : Except String UUID)
    (getChannel : UUID → Except String Channel)
    (handlerFunc : Channel → Option String) : DispatchOutcome Channel :=
  match newChannelUUID with
  | .error e => { wroteError := some e, invokedWith := none }
  | .ok uuid =>
      match getChannel uuid with
      | .error e => { wroteError := some e, invokedWith := none }
      | .ok channel =>
          { wroteError := handlerFunc channel, invokedWith := some channel }

/-- C5: if the UUID fails to parse, the error is written and the handler is
never invoked; if the UUID parses but channel resolution fails, that error
is written and the handler is never invoked; only when both steps succeed
is the handler invoked, with exactly the resolved channel. -/
theorem channelFunctionWrapper_dispatch {UUID Channel : Type}
    (newChannelUUID : Except String UUID)
    (getChannel : UUID → Except String Channel)
    (handlerFunc : Channel → Option String) :
    (∀ e, newChannelUUID = .error e →
      channelFunctionWrapper newChannelUUID getChannel handlerFunc =
        { wroteError := some e, invokedWith := none }) ∧
    (∀ u e, newChannelUUID = .ok u → getChannel u = .error e →
      channelFunctionWrapper newChannelUUID getChannel handlerFunc =
        { wroteError := some e, invokedWith := none }) ∧
    (∀ u c, newChannelUUID = .ok u → getChannel u = .ok c →
      channelFunctionWrapper newChannelUUID getChannel handlerFunc =
        { wroteError := handlerFunc c, invokedWith := some c }) := by
  refine ⟨?_, ?_, ?_⟩
  · intro e he
    simp [channelFunctionWrapper, he]
  · intro u e hu hc
    simp [channelFunctionWrapper, hu, hc]
  · intro u c hu hc
    simp [channelFunctionWrapper, hu, hc]

/-- C5 witness: a malformed UUID writes its parse error without invoking the
handler; a valid UUID with a failing lookup writes the lookup error without
invoking the handler; a valid UUID with a successful lookup invokes the
handler on the resolved channel. -/
theorem channelFunctionWrapper_dispatch_witness :
    channelFunctionWrapper (.error "invalid uuid")
        (fun _ : Nat => (.ok 7 : Except String Nat)) (fun _ => none) =
      { wroteError := some "invalid uuid", invokedWith := none } ∧
    channelFunctionWrapper (.ok 3)
        (fun _ : Nat => (.error "channel not found" : Except String Nat)) (fun _ => none) =
      { wroteError := some "channel not found", invokedWith := none } ∧
    channelFunctionWrapper (.ok 3)
        (fun _ : Nat => (.ok 7 : Except String Nat)) (fun _ => none) =
      { wroteError := none, invokedWith := some 7 } :=
  ⟨(channelFunctionWrapper_dispatch (.error "invalid uuid")
      (fun _ : Nat => (.ok 7 : Except String Nat)) (fun _ => none)).1
      "invalid uuid" rfl,
   (channelFunctionWrapper_dispatch (.ok 3)
      (fun _ : Nat => (.error "channel not found" : Except String Nat)) (fun _ => none)).2.1
      3 "channel not found" rfl rfl,
   (channelFunctionWrapper_dispatch (.ok 3)
      (fun _ : Nat => (.ok 7 : Except String Nat)) (fun _ => none)).2.2
      3 7 rfl rfl⟩

/-- Go's string comparison (byte-wise lexicographic, the order used by
`sort.Strings`), modelled on the character sequences; on the ASCII route
strings the code-point order below coincides with Go's byte order. -/
def goCharsLe : List Char → List Char → Bool
  | [], _ => true
  | _ :: _, [] => false
  | a :: as, b :: bs =>
      if a.toNat < b.toNat then true
      else if b.toNat < a.toNat then false
      else goCharsLe as bs

/-- The order `sort.Strings` sorts by, as a relation on strings. -/
def StrLe (s t : String) : Prop := goCharsLe s.data t.data = true

instance : DecidableRel StrLe :=
  fun s t => inferInstanceAs (Decidable (goCharsLe s.data t.data = true))

theorem goCharsLe_total : ∀ as bs : List Char,
    goCharsLe as bs = true ∨ goCharsLe bs as = true
  | [], _ => Or.inl rfl
  | _ :: _, [] => Or.inr rfl
  | a :: as, b :: bs => by
      rcases Nat.lt_trichotomy a.toNat b.toNat with h | h | h
      · left
        simp [goCharsLe, h]
      · rcases goCharsLe_total as bs with hr | hr
        · left
          simp [goCharsLe, h, Nat.lt_irrefl, hr]
        · right
          simp [goCharsLe, h.symm, Nat.lt_irrefl, hr]
      · right
        simp [goCharsLe, h]

theorem goCharsLe_trans : ∀ as bs cs : List Char,
    goCharsLe as bs = true → goCharsLe bs cs = true → goCharsLe as cs = true
  | [], _, _, _, _ => rfl
  | _ :: _, [], _, h1, _ => by simp [goCharsLe] at h1
  | _ :: _, _ :: _, [], _, h2 => by simp [goCharsLe] at h2
  | a :: as, b :: bs, c :: cs, h1, h2 => by
      rcases Nat.lt_trichotomy a.toNat b.toNat with hab | hab | hab
      · rcases Nat.lt_trichotomy b.toNat c.toNat with hbc | hbc | hbc
        · simp [goCharsLe, Nat.lt_trans hab hbc]
        · simp [goCharsLe, hbc ▸ hab]
        · simp [goCharsLe, Nat.lt_asymm hbc, hbc] at h2
      · rcases Nat.lt_trichotomy b.toNat c.toNat with hbc | hbc | hbc
        · simp [goCharsLe, hab ▸ hbc]
        · simp only [goCharsLe, hab, Nat.lt_irrefl, if_false, if_neg] at h1
          simp only [goCharsLe, hbc, Nat.lt_irrefl, if_false, if_neg] at h2
          have hrec := goCharsLe_trans as bs cs h1 h2
          simp [goCharsLe, hab.trans hbc, Nat.lt_irrefl, hrec]
        · simp [goCharsLe, Nat.lt_asymm hbc, hbc] at h2
      · simp [goCharsLe, Nat.lt_asymm hab, hab] at h1

theorem char_eq_of_toNat_eq {a b : Char} (h : a.toNat = b.toNat) : a = b := by
  cases a
  cases b
  simp only [Char.toNat] at h
  congr 1
  exact UInt32.toNat.inj h

theorem goCharsLe_antisymm : ∀ as bs : List Char,
    goCharsLe as bs = true → goCharsLe bs as = true → as = bs
  | [], [], _, _ => rfl
  | [], _ :: _, _, h2 => by simp [goCharsLe] at h2
  | _ :: _, [], h1, _ => by simp [goCharsLe] at h1
  | a :: as, b :: bs, h1, h2 => by
      rcases Nat.lt_trichotomy a.toNat b.toNat with hab | hab | hab
      · simp [goCharsLe, Nat.lt_asymm hab, hab] at h2
      · simp only [goCharsLe, hab, Nat.lt_irrefl, if_false, if_neg] at h1
        simp only [goCharsLe, hab, Nat.lt_irrefl, if_false, if_neg] at h2
        rw [char_eq_of_toNat_eq hab, goCharsLe_antisymm as bs h1 h2]
      · simp [goCharsLe, Nat.lt_asymm hab, hab] at h1

instance : IsTotal String StrLe :=
  ⟨fun s t => goCharsLe_total s.data t.data⟩

instance : IsTrans String StrLe :=
  ⟨fun s t u => goCharsLe_trans s.data t.data u.data⟩

instance : IsAntisymm String StrLe := by
  constructor
  intro s t h1 h2
  cases s
  cases t
  exact congrArg String.mk (goCharsLe_antisymm _ _ h1 h2)

/-- Go's `sort.Strings` (src/server.go:209): sort ascending in the
byte-wise lexicographic string order. -/
def sortStrings (l : List String) : List String := List.insertionSort StrLe l

/-- Models `initializeChannelHandlers` (src/server.go:190-210): the
registered handlers passing the include/exclude filter are activated, each
activated handler's `Initialize` hook runs — the hooks live in the adapter
packages outside src/ and are modelled from the spec: each one registers its
routes through the facade (`AddChannelRoute`), appending the lines
`routesOf h` to `s.routes` — and finally the route help is sorted
(`sort.Strings(s.routes)`, line 209). -/
def initChannelHandlers (regs : List Handler) (routesOf : Handler → List String)
    (includes excludes : Option (List String)) (st : ServerRoutes) :
    List Handler × ServerRoutes :=
  (activeHandlers regs includes excludes,
   { st with routes :=
      sortStrings (st.routes ++ (activeHandlers regs includes excludes).flatMap routesOf) })

/-- The splash banner (src/server.go:265-270). -/
def splash : String :=
  "\n ____________                   _____             \n   ___  ____/_________  ___________(_)____________\n    _  /  __  __ \\  / / /_  ___/_  /_  _ \\_  ___/\n    / /__  / /_/ / /_/ /_  /   _  / /  __/  /    \n    \\____/ \\____/\\__,_/ /_/    /_/  \\___//_/ v"

/-- The body written by `server.handleIndex` (src/server.go:250-263): title,
splash, version, backend health string, a blank line, then the route help
lines joined with newlines. -/
def handleIndexBody (version health : String) (st : ServerRoutes) : String :=
  "<title>courier</title><body><pre>\n" ++ splash ++ version ++ health ++ "\n\n" ++
    String.intercalate "\n" st.routes ++ "</pre></body>"

/-- C7: after the initialization pass the route listing is sorted in the
lexicographic (byte-wise) string order — so, paths being the leading field
of every line, the channel routes appear in lexicographic path order — and
the listing, the whole routing state, and the index page are identical for
every registration order of the same adapters. -/
theorem index_listing_sorted (regs regs' : List Handler)
    (routesOf : Handler → List String) (includes excludes : Option (List String))
    (st : ServerRoutes) (version health : String) (hperm : regs.Perm regs') :
    (initChannelHandlers regs routesOf includes excludes st).2 =
      (initChannelHandlers regs' routesOf includes excludes st).2 ∧
    List.Sorted StrLe (initChannelHandlers regs routesOf includes excludes st).2.routes ∧
    handleIndexBody version health (initChannelHandlers regs routesOf includes excludes st).2 =
      handleIndexBody version health (initChannelHandlers regs' routesOf includes excludes st).2 := by
  have hactive : (activeHandlers regs includes excludes).Perm
      (activeHandlers regs' includes excludes) := by
    unfold activeHandlers
    exact hperm.filter _
  have hacc : (st.routes ++ (activeHandlers regs includes excludes).flatMap routesOf).Perm
      (st.routes ++ (activeHandlers regs' includes excludes).flatMap routesOf) :=
    (hactive.flatMap_right routesOf).append_left st.routes
  have heq : sortStrings (st.routes ++ (activeHandlers regs includes excludes).flatMap routesOf) =
      sortStrings (st.routes ++ (activeHandlers regs' includes excludes).flatMap routesOf) :=
    List.eq_of_perm_of_sorted
      ((List.perm_insertionSort _ _).trans (hacc.trans (List.perm_insertionSort _ _).symm))
      (List.sorted_insertionSort _ _) (List.sorted_insertionSort _ _)
  refine ⟨?_, List.sorted_insertionSort _ _, ?_⟩
  · exact congrArg (fun rs => ({ st with routes := rs } : ServerRoutes)) heq
  · exact congrArg
      (fun rs => handleIndexBody version health ({ st with routes := rs } : ServerRoutes)) heq

/-- The route lines registered by the claim's two example adapters: `X` with
GET action `receive` and `Y` with POST action `status`, each produced by the
real `AddChannelRoute`. -/
def exampleRoutesOf (h : Handler) : List String :=
  if h.channelType = "X" then
    (AddChannelRoute "X" "X" "GET" "receive" newServerRoutes).2.routes
  else
    (AddChannelRoute "Y" "Y" "POST" "status" newServerRoutes).2.routes

/-- C7 witness: for adapters `X` (GET `receive`) and `Y` (POST `status`),
both registration orders produce the identical routing state, and the
listing has `X`'s route before `Y`'s — lexicographic path order. -/
theorem index_listing_sorted_witness :
    (initChannelHandlers [⟨"X", "X"⟩, ⟨"Y", "Y"⟩] exampleRoutesOf none none
        newServerRoutes).2 =
      (initChannelHandlers [⟨"Y", "Y"⟩, ⟨"X", "X"⟩] exampleRoutesOf none none
        newServerRoutes).2 ∧
    (initChannelHandlers [⟨"Y", "Y"⟩, ⟨"X", "X"⟩] exampleRoutesOf none none
        newServerRoutes).2.routes =
      [routeDescription "/x/:uuid/receive/" "X" "receive",
       routeDescription "/y/:uuid/status/" "Y" "status"] :=
  ⟨(index_listing_sorted [⟨"X", "X"⟩, ⟨"Y", "Y"⟩] [⟨"Y", "Y"⟩, ⟨"X", "X"⟩]
      exampleRoutesOf none none newServerRoutes "" ""
      (List.Perm.swap (⟨"Y", "Y"⟩ : Handler) (⟨"X", "X"⟩ : Handler) [])).1,
   by decide⟩

end Courier
